import Mathlib

/-!
Verification of the ScienceGPT response-generation and caching pipeline
(`backend_code/llm_handler.py`).

Modelling conventions:
* A Python `str` is modelled as `List Char` (named `Str`); Python string
  methods used by the handler (`strip`, `split`, `replace`, `startswith`,
  slicing, f-string concatenation) are given executable list-level
  definitions mirroring CPython semantics.
* Timestamps (`datetime.now()`, `timedelta(hours=h)`) are modelled as
  integer minutes: `now` is an `Int` parameter and `timedelta(hours=h)`
  is `h * 60`.  The handler stores `datetime.now().isoformat()` and parses
  it back with `fromisoformat`; the round trip is the identity, so the
  model stores the timestamp directly.
* Every external collaborator (Groq chat completion at each call site,
  deep-translator, YouTube search, transcript fetch) is an arbitrary
  behaviour bundled in `Externals`: each interaction either returns a
  value or fails (a raised exception is `Except.error`).  Chat-model
  calls take the (system prompt, user prompt) pair.
* `hashlib.md5(...).hexdigest()` is external code; it is modelled as an
  arbitrary `digest : Str → Str` parameter.
* Streamlit `st.session_state` fields touched by the handler are the
  `SessionState` record; `st.error` / `st.warning` only display text and
  never raise, so they have no effect in the model.  Stateful handler
  methods take the state and return the updated state.
-/

namespace ScienceGPT

/-- Python `str` as a list of characters. -/
abbrev Str := List Char

/-- Characters of a Lean string literal, used to transcribe Python literals. -/
def str (s : String) : Str := s.data

/-- Python `str.strip()` (no arguments): remove leading and trailing whitespace. -/
def py_strip (s : Str) : Str :=
  ((s.dropWhile Char.isWhitespace).reverse.dropWhile Char.isWhitespace).reverse

/-- Python `str.split(sep)` for a single-character separator: split at every
occurrence, keeping empty pieces (`"".split(c) == [""]`). -/
def py_split (sep : Char) : Str → List Str
  | [] => [[]]
  | c :: cs =>
    if c = sep then [] :: py_split sep cs
    else
      match py_split sep cs with
      | [] => [[c]]
      | h :: t => (c :: h) :: t

/-- Python `str.startswith(pat)`. -/
def py_startswith (s pat : Str) : Bool := decide (List.take pat.length s = pat)

/-- Fuelled worker for `py_replace` (fuel bounds the number of scanned
positions, structurally decreasing; called with fuel = length). -/
def py_replace_aux (pat repl : Str) : Nat → Str → Str
  | _, [] => []
  | 0, s => s
  | fuel + 1, c :: cs =>
    if pat ≠ [] ∧ List.take pat.length (c :: cs) = pat then
      repl ++ py_replace_aux pat repl fuel (List.drop pat.length (c :: cs))
    else
      c :: py_replace_aux pat repl fuel cs

/-- Python `str.replace(pat, repl)` for a non-empty pattern: replace all
non-overlapping occurrences left to right.  (The handler only replaces the
non-empty labels `"Fact:"` and `"Explanation:"`.) -/
def py_replace (pat repl s : Str) : Str := py_replace_aux pat repl s.length s

/-- Python `str(n)` / f-string interpolation of an `int`. -/
def nat_str (n : Nat) : Str := (Nat.repr n).data

/-- A video search result as consumed by the handler:
`{"id": ..., "title": ..., "description": ...}` built from one YouTube
search item. -/
structure VideoCandidate where
  id : Str
  title : Str
  description : Str
deriving DecidableEq

/-- A fact-of-the-day payload:
`{"fact": ..., "explanation": ..., "timestamp": ...}`. -/
structure FactData where
  fact : Str
  explanation : Str
  timestamp : Int
deriving DecidableEq

/-- The `st.session_state` fields owned by the handler's caching logic. -/
structure SessionState where
  fact_cache : List (Str × FactData)
  cached_suggestions : List Str
  last_settings_hash : Option Str
  settings_applied : Bool
deriving DecidableEq

/-- The dictionary returned by `generate_response`:
`{"text": ..., "video_url": ..., "video_summary": ...}`. -/
structure Answer where
  text : Str
  video_url : Option Str
  video_summary : Option Str
deriving DecidableEq

/-- One arbitrary behaviour of every external collaborator.  Each chat
completion call site is its own interaction `(system prompt, user prompt) →
content or exception`; the translator, video search and transcript fetch
likewise either return data or raise. -/
structure Externals where
  translate_to_en : Str → Except Str Str
  answer_model : Str → Str → Except Str Str
  translate_back : Str → Str → Except Str Str
  youtube_service : Bool
  video_search : Str → Except Str (List VideoCandidate)
  select_model : Str → Str → Except Str Str
  transcript_fetch : Str → Except Str (List Str)
  summary_model : Str → Str → Except Str Str
  suggestions_model : Str → Str → Except Str Str
  fact_model : Str → Str → Except Str Str

/-- The `self.lang_map` dictionary from `LLMHandler.__init__`. -/
def lang_map : List (Str × Str) :=
  [(str ("English"), str ("en")), (str ("Hindi"), str ("hi")),
   (str ("Marathi"), str ("mr")), (str ("Gujarati"), str ("gu")),
   (str ("Tamil"), str ("ta")), (str ("Kannada"), str ("kn")),
   (str ("Telugu"), str ("te")), (str ("Malayalam"), str ("ml")),
   (str ("Bengali"), str ("bn")), (str ("Punjabi"), str ("pa"))]

/-- The f-string `f"{grade}-{subject}-{language}-{topic}"` built by
`_create_settings_hash`. -/
def settings_string (grade : Nat) (subject language topic : Str) : Str :=
  nat_str grade ++ str ("-") ++ subject ++ str ("-") ++ language ++ str ("-") ++ topic

/-- Model of `LLMHandler._create_settings_hash`: md5 hexdigest of the settings string;
the digest (`hashlib`) is external and passed as a parameter. -/
def create_settings_hash (digest : Str → Str) (grade : Nat)
    (subject language topic : Str) : Str :=
  digest (settings_string grade subject language topic)

/-- Model of `LLMHandler._is_cache_valid`: an entry for the key exists in
`st.session_state.fact_cache` and `now - timestamp < timedelta(hours=d)`
(times in minutes). -/
def is_cache_valid (now : Int) (fact_cache : List (Str × FactData))
    (cache_key : Str) (cache_duration_hours : Int) : Bool :=
  match fact_cache.lookup cache_key with
  | none => false
  | some entry => decide (now - entry.timestamp < cache_duration_hours * 60)

/-- The search query composed in `search_and_select_video`. -/
def search_query (grade : Nat) (subject topic english_question : Str) : Str :=
  str ("educational video for grade ") ++ nat_str grade ++ str (" ") ++ subject
    ++ str (" ") ++ topic ++ str (": ") ++ english_question

/-- One step of the Python dict comprehension keyed by video id: assigning to
an existing key overwrites its value in place, a new key is appended. -/
def insert_option (acc : List VideoCandidate) (v : VideoCandidate) :
    List VideoCandidate :=
  if acc.any (fun w => w.id == v.id) then
    acc.map (fun w => if w.id = v.id then v else w)
  else
    acc ++ [v]

/-- The `video_options` dict of `search_and_select_video`
(`{video_id: {...} for video in videos}`), as an ordered association list
with CPython dict insertion-order semantics. -/
def video_options (videos : List VideoCandidate) : List VideoCandidate :=
  videos.foldl insert_option []

/-- The selection prompt of `search_and_select_video` (triple-quoted f-string;
the indentation whitespace of the Python source literal is elided). -/
def selection_prompt (grade : Nat) (topic subject english_question : Str)
    (options : List VideoCandidate) : Str :=
  str ("A Grade ") ++ nat_str grade ++ str (" student, studying \x27") ++ topic
    ++ str ("\x27 in \x27") ++ subject ++ str ("\x27, asked: \"")
    ++ english_question
    ++ str ("\"\nFrom the following list, select the ONE most relevant video. Return ONLY its ID.\nVideo Options:\n")
    ++ List.intercalate (str ("\n"))
        (options.map (fun v => str ("- ID: ") ++ v.id ++ str (", Title: ") ++ v.title))
    ++ str ("\nBest Video ID:\n")

/-- System prompt of the video-selection chat call. -/
def select_system_prompt : Str :=
  str ("You are an expert at selecting relevant educational videos. You will only return the video ID.")

/-- Python regex character class `[\w-]` (`\w` restricted to ASCII word
characters, which covers YouTube ids and ASCII model output). -/
def is_id_char (c : Char) : Bool := c.isAlphanum || c == '_' || c == '-'

/-- Model of the search for the pattern of 11 word-or-hyphen characters
(`re.search`): the leftmost run of 11 consecutive
`[\w-]` characters, if any. -/
def re_search_id : Str → Option Str
  | [] => none
  | c :: cs =>
    if (List.take 11 (c :: cs)).all is_id_char = true
        ∧ (List.take 11 (c :: cs)).length = 11 then
      some (List.take 11 (c :: cs))
    else
      re_search_id cs

/-- Model of `LLMHandler.search_and_select_video`.  The body's `try` covers search and
selection; any raised exception is caught and converted to `None`, as is an
empty result list.  A parsed id that is a key of `video_options` selects that
candidate, anything else falls back to `list(video_options.values())[0]`. -/
def search_and_select_video (ext : Externals) (english_question : Str)
    (grade : Nat) (subject topic : Str) : Option VideoCandidate :=
  if ext.youtube_service = false then none
  else
    match ext.video_search (search_query grade subject topic english_question) with
    | Except.error _ => none
    | Except.ok videos =>
      if videos = [] then none
      else
        let options := video_options videos
        match ext.select_model select_system_prompt
            (selection_prompt grade topic subject english_question options) with
        | Except.error _ => none
        | Except.ok raw =>
          let response_text := py_strip raw
          match re_search_id response_text with
          | some selected_id =>
            match options.find? (fun v => v.id == selected_id) with
            | some v => some v
            | none => options.head?
          | none => options.head?

/-- System prompt of the summary chat call. -/
def summary_system_prompt : Str :=
  str ("You are an expert at summarizing educational content for students.")

/-- The summary prompt of `get_video_summary` (content truncated to 2000
characters). -/
def summary_prompt (content : Str) : Str :=
  str ("Summarize the following for a young student in 2-3 sentences:\n\n")
    ++ List.take 2000 content

/-- Model of `LLMHandler.get_video_summary`: transcript text joined with spaces when
the fetch succeeds, otherwise the description; empty content short-circuits;
a summary-model failure is caught and yields `None`. -/
def get_video_summary (ext : Externals) (video_id video_description : Str) :
    Option Str :=
  let content_to_summarize :=
    match ext.transcript_fetch video_id with
    | Except.ok items => List.intercalate (str (" ")) items
    | Except.error _ => video_description
  if content_to_summarize = [] then some (str ("No summary could be generated."))
  else
    match ext.summary_model summary_system_prompt (summary_prompt content_to_summarize) with
    | Except.ok raw => some (py_strip raw)
    | Except.error _ => none

/-- The system prompt of the main answer call (triple-quoted f-string,
indentation elided). -/
def answer_system_prompt (grade : Nat) : Str :=
  str ("You are ScienceGPT, an expert science teacher for Indian students.\nThe user is a Grade ")
    ++ nat_str grade
    ++ str (" student. Your explanations must be simple and age-appropriate.\nYou MUST provide a valid, relevant scientific answer.")

/-- The user prompt of the main answer call. -/
def answer_user_prompt (english_question : Str) : Str :=
  str ("Provide a comprehensive answer in English for the question \x27")
    ++ english_question ++ str ("\x27.")

/-- The empty-answer substitute message of `generate_response`. -/
def trouble_message (language : Str) : Str :=
  str ("I am currently having trouble processing this request in ") ++ language
    ++ str (". Please try rephrasing your question.")

/-- The outer-except fallback text of `generate_response`. -/
def unexpected_error_text : Str :=
  str ("An unexpected error occurred. Please try again.")

/-- Model of `LLMHandler.generate_response`.  Flow of the source: look up the language
code (default `'en'`); best-effort translate the question to English (inner
`try`); call the answer model — the only statement whose exception reaches
the outer `except`, which substitutes the fixed error text; best-effort
translate the answer back (inner `try`, falling back to the English answer);
substitute `trouble_message` when the text is empty; then run the
video-selection and summary enrichment (both catch internally and cannot
raise).  Always returns the `{"text", "video_url", "video_summary"}` dict. -/
def generate_response (ext : Externals) (question : Str) (grade : Nat)
    (subject language topic : Str) : Answer :=
  let lang_code := (lang_map.lookup language).getD (str ("en"))
  let english_question :=
    if lang_code ≠ str ("en") then
      match ext.translate_to_en question with
      | Except.ok t => t
      | Except.error _ => question
    else question
  match ext.answer_model (answer_system_prompt grade)
      (answer_user_prompt english_question) with
  | Except.error _ =>
    { text := unexpected_error_text, video_url := none, video_summary := none }
  | Except.ok raw =>
    let english_response := py_strip raw
    let response_text :=
      if lang_code ≠ str ("en") then
        match ext.translate_back lang_code english_response with
        | Except.ok t => t
        | Except.error _ => english_response
      else english_response
    let response_text :=
      if response_text = [] then trouble_message language else response_text
    match search_and_select_video ext english_question grade subject topic with
    | some selected_video =>
      { text := response_text,
        video_url := some (str ("https://www.youtube.com/watch?v=") ++ selected_video.id),
        video_summary := get_video_summary ext selected_video.id selected_video.description }
    | none =>
      { text := response_text, video_url := none, video_summary := none }

/-- System prompt of the suggestions chat call. -/
def suggestions_system_prompt (language : Str) : Str :=
  str ("You are an educational assistant creating questions for Indian students. You must respond in ")
    ++ language ++ str (".")

/-- The suggestions prompt (triple-quoted f-string, indentation elided). -/
def suggestions_prompt (grade : Nat) (subject language topic : Str) : Str :=
  str ("Generate 4 educational questions for a Grade ") ++ nat_str grade
    ++ str (" student studying ") ++ subject
    ++ (if topic ≠ str ("All Topics") then str (" focusing on ") ++ topic else [])
    ++ str (".\nThe questions must be in ") ++ language
    ++ str (".\nReturn only the questions, one per line, without numbering or bullets.")

/-- The hardcoded suggestion list of the `except` branch of
`generate_suggestions`. -/
def default_suggestions : List Str :=
  [str ("What is the structure of an atom?"),
   str ("How do plants make their food?"),
   str ("What causes the seasons to change?"),
   str ("Why is water important for living things?")]

/-- The list comprehension of `generate_suggestions`: strip the model text,
split on newlines, strip each line, keep the non-empty ones. -/
def parse_suggestions (raw : Str) : List Str :=
  ((py_split ('\n') (py_strip raw)).map py_strip).filter (fun q => q ≠ [])

/-- The regeneration condition of `generate_suggestions`
(`last_settings_hash != cache_key or not cached_suggestions or
settings_applied`). -/
def suggestions_regen (st : SessionState) (cache_key : Str) : Prop :=
  st.last_settings_hash ≠ some cache_key ∨ st.cached_suggestions = []
    ∨ st.settings_applied = true

instance (st : SessionState) (k : Str) : Decidable (suggestions_regen st k) := by
  unfold suggestions_regen
  infer_instance

/-- Model of `LLMHandler.generate_suggestions`.  On a cache miss (key changed, empty
cache, or the settings-applied flag) the flag is cleared, the model is
called, and the first four parsed lines are cached under the new key; a
model exception reaches the `except` branch, which returns the fixed default
list (the flag is already cleared at that point, the cache is untouched).
On a hit the cached list is returned unchanged. -/
def generate_suggestions (digest : Str → Str) (ext : Externals)
    (st : SessionState) (grade : Nat) (subject language topic : Str) :
    List Str × SessionState :=
  let cache_key := create_settings_hash digest grade subject language topic
  if suggestions_regen st cache_key then
    let st1 : SessionState := { st with settings_applied := false }
    match ext.suggestions_model (suggestions_system_prompt language)
        (suggestions_prompt grade subject language topic) with
    | Except.ok raw =>
      let suggestions := List.take 4 (parse_suggestions raw)
      (suggestions,
        { st1 with cached_suggestions := suggestions,
                   last_settings_hash := some cache_key })
    | Except.error _ => (default_suggestions, st1)
  else
    (st.cached_suggestions, st)

/-- System prompt of the fact-of-the-day chat call. -/
def fact_system_prompt : Str :=
  str ("You are an educational assistant specialized in creating fascinating science facts for Indian students.")

/-- The fact prompt (triple-quoted f-string, indentation elided). -/
def fact_prompt (grade : Nat) (subject topic : Str) : Str :=
  str ("Generate an interesting and educational science fact for a Grade ")
    ++ nat_str grade ++ str (" student studying ") ++ subject
    ++ (if topic ≠ str ("All Topics") then str (" related to ") ++ topic else [])
    ++ str (".\nThe fact must be in English.\nFormat the response as:\nFact: [The interesting fact]\nExplanation: [Brief 2-3 sentence explanation]")

/-- The label-tolerant parsing loop of `generate_fact_of_day`: the last
`"Fact:"` / `"Explanation:"` line wins; a missing fact label falls back to the
first line, a missing explanation to the remaining lines joined by spaces. -/
def parse_fact (fact_text : Str) : Str × Str :=
  let lines := py_split ('\n') fact_text
  let fe := lines.foldl
    (fun (p : Str × Str) line =>
      if py_startswith line (str ("Fact:")) then
        (py_strip (py_replace (str ("Fact:")) [] line), p.2)
      else if py_startswith line (str ("Explanation:")) then
        (p.1, py_strip (py_replace (str ("Explanation:")) [] line))
      else p)
    ([], [])
  let fact := if fe.1 = [] then lines.headD [] else fe.1
  let explanation :=
    if fe.2 = [] ∧ 1 < lines.length then List.intercalate (str (" ")) (lines.drop 1)
    else fe.2
  (fact, explanation)

/-- The hardcoded payload of the `except` branch of `generate_fact_of_day`. -/
def fallback_fact (now : Int) : FactData :=
  { fact := str ("The human brain contains approximately 86 billion neurons!"),
    explanation := str ("Each neuron can connect to thousands of other neurons, creating an incredibly complex network that allows us to think, learn, and remember."),
    timestamp := now }

/-- The regeneration condition of `generate_fact_of_day`
(`not _is_cache_valid(key) or settings_applied`). -/
def fact_regen (now : Int) (st : SessionState) (cache_key : Str) : Prop :=
  is_cache_valid now st.fact_cache cache_key 24 = false ∨ st.settings_applied = true

instance (now : Int) (st : SessionState) (k : Str) :
    Decidable (fact_regen now st k) := by
  unfold fact_regen
  infer_instance

/-- Model of `LLMHandler.generate_fact_of_day`.  The key pins the language field to
`"English"`.  On regeneration (lapsed TTL or settings-applied flag) the model
is called, the labelled output parsed tolerantly, and the payload stored in
`fact_cache` under the key; a model exception reaches the `except` branch,
which returns the fixed fallback payload stamped with the current time and
leaves the state untouched.  On a valid cache hit the stored entry is
returned (the key is present, so the dict lookup cannot fail; the model
returns the stored entry or a dummy).  The settings-applied flag is read but
never written by this method. -/
def generate_fact_of_day (digest : Str → Str) (ext : Externals) (now : Int)
    (st : SessionState) (grade : Nat) (subject topic : Str) :
    FactData × SessionState :=
  let cache_key := create_settings_hash digest grade subject (str ("English")) topic
  if fact_regen now st cache_key then
    match ext.fact_model fact_system_prompt (fact_prompt grade subject topic) with
    | Except.ok raw =>
      let fact_text := py_strip raw
      let fe := parse_fact fact_text
      let fact_data : FactData :=
        { fact := fe.1, explanation := fe.2, timestamp := now }
      (fact_data, { st with fact_cache := (cache_key, fact_data) :: st.fact_cache })
    | Except.error _ => (fallback_fact now, st)
  else
    ((st.fact_cache.lookup cache_key).getD (fallback_fact now), st)

/-- Model of `LLMHandler.clear_suggestion_cache`. -/
def clear_suggestion_cache (st : SessionState) : SessionState :=
  { st with cached_suggestions := [], last_settings_hash := none,
            settings_applied := true }

/-- Model of `LLMHandler.clear_fact_cache`. -/
def clear_fact_cache (st : SessionState) : SessionState :=
  { st with fact_cache := [], settings_applied := true }

/-- Predicate: `tok` occurs in `cs` as a token of the id shape matched by
`re.search(r'[\w-]{11}', ...)`: an 11-character window of `[\w-]`
characters. -/
def id_token_at (cs tok : Str) : Prop :=
  ∃ i, List.take 11 (List.drop i cs) = tok ∧ tok.all is_id_char = true
    ∧ tok.length = 11

/-- The identity digest, a concrete instantiation of the external
`hashlib.md5(...).hexdigest()` parameter. -/
def id_digest : Str → Str := fun s => s

/-- A concrete behaviour where every external interaction raises. -/
def all_fail : Externals :=
  { translate_to_en := fun _ => Except.error (str ("down")),
    answer_model := fun _ _ => Except.error (str ("down")),
    translate_back := fun _ _ => Except.error (str ("down")),
    youtube_service := false,
    video_search := fun _ => Except.error (str ("down")),
    select_model := fun _ _ => Except.error (str ("down")),
    transcript_fetch := fun _ => Except.error (str ("down")),
    summary_model := fun _ _ => Except.error (str ("down")),
    suggestions_model := fun _ _ => Except.error (str ("down")),
    fact_model := fun _ _ => Except.error (str ("down")) }

/-- A behaviour where the question is translated, the answer model replies
`"Hello"`, and the back-translation raises. -/
def back_translation_fails : Externals :=
  { all_fail with
    translate_to_en := fun _ => Except.ok (str ("Why is the sky blue?")),
    answer_model := fun _ _ => Except.ok (str ("Hello")) }

/-- The same behaviour except that the back-translation succeeds and happens
to return the same text as the English answer. -/
def back_translation_echoes : Externals :=
  { back_translation_fails with
    translate_back := fun _ _ => Except.ok (str ("Hello")) }

/-- A behaviour where the suggestions model replies five lines. -/
def five_line_suggestions : Externals :=
  { all_fail with
    suggestions_model := fun _ _ => Except.ok (str ("A\nB\nC\nD\nE")) }

/-- A behaviour where the fact model replies a labelled fact. -/
def fact_reply_ok : Externals :=
  { all_fail with
    fact_model := fun _ _ => Except.ok (str ("Fact: A\nExplanation: B")) }

/-- A behaviour where the video search returns two results sharing one video
id (with different titles) and the selection model names no id. -/
def duplicate_id_search : Externals :=
  { all_fail with
    youtube_service := true,
    video_search := fun _ => Except.ok
      [{ id := str ("AAAAAAAAAAA"), title := str ("t1"), description := str ("d1") },
       { id := str ("AAAAAAAAAAA"), title := str ("t2"), description := str ("d2") }],
    select_model := fun _ _ => Except.ok (str ("I cannot choose")) }

/-- A behaviour where the video search returns one result and the selection
model replies without naming any id. -/
def single_result_search : Externals :=
  { all_fail with
    youtube_service := true,
    video_search := fun _ => Except.ok
      [{ id := str ("dQw4w9WgXcQ"), title := str ("t1"), description := str ("d1") }],
    select_model := fun _ _ => Except.ok (str ("zzz")) }

/-- A behaviour where the video search succeeds with zero results. -/
def empty_search : Externals :=
  { all_fail with
    youtube_service := true,
    video_search := fun _ => Except.ok [] }

/-- A behaviour where the search succeeds but the selection call raises. -/
def select_raises : Externals :=
  { empty_search with
    video_search := fun _ => Except.ok
      [{ id := str ("dQw4w9WgXcQ"), title := str ("t1"), description := str ("d1") }] }

/-- A session state whose settings-applied flag is set and whose caches are
empty. -/
def st_flag : SessionState :=
  { fact_cache := [], cached_suggestions := [], last_settings_hash := none,
    settings_applied := true }

/-- A session state holding a cached suggestion list for the settings
(5, Physics, English, All Topics) under the identity digest, flag cleared. -/
def st_hit : SessionState :=
  { fact_cache := [],
    cached_suggestions := [str ("Q1"), str ("Q2")],
    last_settings_hash := some (create_settings_hash id_digest 5 (str ("Physics"))
      (str ("English")) (str ("All Topics"))),
    settings_applied := false }

/-- The literal prefix of `trouble_message` is non-empty, so the substitute
text is never the empty string. -/
theorem trouble_message_ne_nil (language : Str) : trouble_message language ≠ [] := by
  unfold trouble_message
  intro h
  rcases List.append_eq_nil.mp h with ⟨h1, h2⟩
  rcases List.append_eq_nil.mp h1 with ⟨h3, h4⟩
  exact absurd h3 (by decide)

/-- Claim C4: `_is_cache_valid` is true iff an entry exists for the key and
`now - created_at` is strictly below the ttl (times in minutes, ttl in
hours); with the default 24-hour ttl, an entry created at `T` is valid at
`T` + 23h59m and invalid at `T` + 24h01m. -/
theorem c4_is_cache_valid_iff (now : Int) (cache : List (Str × FactData))
    (key : Str) (ttl : Int) (T : Int) (f e : Str) :
    (is_cache_valid now cache key ttl = true
      ↔ ∃ entry, cache.lookup key = some entry
          ∧ now - entry.timestamp < ttl * 60)
    ∧ is_cache_valid (T + 1439)
        [(key, { fact := f, explanation := e, timestamp := T })] key 24 = true
    ∧ is_cache_valid (T + 1441)
        [(key, { fact := f, explanation := e, timestamp := T })] key 24 = false := by
  refine ⟨?_, ?_, ?_⟩
  · unfold is_cache_valid
    cases h : cache.lookup key with
    | none => simp [h]
    | some entry => simp [h]
  · unfold is_cache_valid
    simp [List.lookup]
  · unfold is_cache_valid
    simp [List.lookup]

/-- Claim C5: when the model call inside the fact generator raises,
`generate_fact_of_day` returns exactly the fixed fallback payload — the
86-billion-neurons fact, the fixed neuron-network explanation, the current
timestamp — leaves the state unchanged, and propagates no exception. -/
theorem c5_fact_fallback (digest : Str → Str) (ext : Externals) (now : Int)
    (st : SessionState) (grade : Nat) (subject topic : Str) (err : Str)
    (hregen : fact_regen now st
      (create_settings_hash digest grade subject (str ("English")) topic))
    (hm : ext.fact_model fact_system_prompt (fact_prompt grade subject topic)
      = Except.error err) :
    generate_fact_of_day digest ext now st grade subject topic = (fallback_fact now, st)
    ∧ (fallback_fact now).fact
        = str ("The human brain contains approximately 86 billion neurons!")
    ∧ (fallback_fact now).explanation
        = str ("Each neuron can connect to thousands of other neurons, creating an incredibly complex network that allows us to think, learn, and remember.")
    ∧ (fallback_fact now).timestamp = now := by
  refine ⟨?_, rfl, rfl, rfl⟩
  simp only [generate_fact_of_day]
  rw [if_pos hregen, hm]

/-- Witness for C5 at a concrete failing behaviour. -/
theorem c5_fact_fallback_witness :
    generate_fact_of_day id_digest all_fail 0 st_flag 5 (str ("Physics"))
        (str ("All Topics")) = (fallback_fact 0, st_flag)
    ∧ (fallback_fact 0).fact
        = str ("The human brain contains approximately 86 billion neurons!")
    ∧ (fallback_fact 0).explanation
        = str ("Each neuron can connect to thousands of other neurons, creating an incredibly complex network that allows us to think, learn, and remember.")
    ∧ (fallback_fact 0).timestamp = 0 :=
  c5_fact_fallback id_digest all_fail 0 st_flag 5 (str ("Physics"))
    (str ("All Topics")) (str ("down")) (Or.inr rfl) rfl

/-- Claim C3: `generate_suggestions` regenerates exactly when the derived key
differs from the stored key, or no cached list exists, or the
settings-applied flag is set; otherwise it returns the cached ordered list
and leaves the whole state unchanged, so repeated calls with unchanged
settings return the same sequence (the function takes no clock: there is no
time-based expiry to model). -/
theorem c3_suggestions_cache (digest : Str → Str) (ext : Externals)
    (st : SessionState) (grade : Nat) (subject language topic : Str) :
    (¬ suggestions_regen st (create_settings_hash digest grade subject language topic) →
      generate_suggestions digest ext st grade subject language topic
        = (st.cached_suggestions, st))
    ∧ (suggestions_regen st (create_settings_hash digest grade subject language topic) →
      ∀ raw, ext.suggestions_model (suggestions_system_prompt language)
          (suggestions_prompt grade subject language topic) = Except.ok raw →
        generate_suggestions digest ext st grade subject language topic
          = (List.take 4 (parse_suggestions raw),
             { st with settings_applied := false,
                       cached_suggestions := List.take 4 (parse_suggestions raw),
                       last_settings_hash :=
                         some (create_settings_hash digest grade subject language topic) })) := by
  constructor
  · intro h
    simp only [generate_suggestions]
    rw [if_neg h]
  · intro h raw hm
    simp only [generate_suggestions]
    rw [if_pos h, hm]

/-- Witness for C3: a cache hit returns the stored list unchanged, and a
flag-triggered miss regenerates from the model reply. -/
theorem c3_suggestions_cache_witness :
    generate_suggestions id_digest all_fail st_hit 5 (str ("Physics"))
        (str ("English")) (str ("All Topics")) = (st_hit.cached_suggestions, st_hit)
    ∧ generate_suggestions id_digest five_line_suggestions st_flag 5 (str ("Physics"))
        (str ("English")) (str ("All Topics"))
      = (List.take 4 (parse_suggestions (str ("A\nB\nC\nD\nE"))),
         { st_flag with settings_applied := false,
                        cached_suggestions := List.take 4 (parse_suggestions (str ("A\nB\nC\nD\nE"))),
                        last_settings_hash := some (create_settings_hash id_digest 5
                          (str ("Physics")) (str ("English")) (str ("All Topics"))) }) :=
  ⟨(c3_suggestions_cache id_digest all_fail st_hit 5 (str ("Physics"))
      (str ("English")) (str ("All Topics"))).1 (by decide),
   (c3_suggestions_cache id_digest five_line_suggestions st_flag 5 (str ("Physics"))
      (str ("English")) (str ("All Topics"))).2 (by decide) (str ("A\nB\nC\nD\nE")) rfl⟩

/-- Counterexample to C8: with the settings-applied flag set (so the fact
regeneration is flag-triggered) and the model call succeeding, the flag is
still set after `generate_fact_of_day` returns — the fact path never clears
it, contradicting the claim that both cache paths clear the flag. -/
theorem c8_fact_does_not_clear_flag :
    st_flag.settings_applied = true
    ∧ fact_regen 0 st_flag (create_settings_hash id_digest 5 (str ("Physics"))
        (str ("English")) (str ("All Topics")))
    ∧ (generate_fact_of_day id_digest fact_reply_ok 0 st_flag 5 (str ("Physics"))
        (str ("All Topics"))).2.settings_applied = true := by
  refine ⟨rfl, Or.inr rfl, ?_⟩
  decide

/-- Claim C8 (amended): the settings-applied flag is consumed and cleared by
the suggestions path — after any regeneration branch of
`generate_suggestions` the flag is false — while `generate_fact_of_day`
reads the flag to trigger regeneration but never writes it: the flag after
any fact call equals the flag before, so a flag-triggered fact regeneration
repeats on every call until the suggestions path clears the flag. -/
theorem c8_flag_cleared_only_by_suggestions (digest : Str → Str)
    (ext : Externals) (now : Int) (st : SessionState) (grade : Nat)
    (subject language topic : Str) (grade2 : Nat) (subject2 topic2 : Str) :
    (suggestions_regen st (create_settings_hash digest grade subject language topic) →
      (generate_suggestions digest ext st grade subject language topic).2.settings_applied
        = false)
    ∧ (generate_fact_of_day digest ext now st grade2 subject2 topic2).2.settings_applied
        = st.settings_applied := by
  constructor
  · intro h
    simp only [generate_suggestions]
    rw [if_pos h]
    split <;> rfl
  · simp only [generate_fact_of_day]
    split
    · split <;> rfl
    · rfl

/-- Witness for the amended C8 at concrete inputs. -/
theorem c8_flag_cleared_only_by_suggestions_witness :
    (generate_suggestions id_digest five_line_suggestions st_flag 5 (str ("Physics"))
        (str ("English")) (str ("All Topics"))).2.settings_applied = false
    ∧ (generate_fact_of_day id_digest fact_reply_ok 0 st_flag 5 (str ("Physics"))
        (str ("All Topics"))).2.settings_applied = st_flag.settings_applied :=
  ⟨(c8_flag_cleared_only_by_suggestions id_digest five_line_suggestions 0 st_flag 5
      (str ("Physics")) (str ("English")) (str ("All Topics")) 5 (str ("Physics"))
      (str ("All Topics"))).1 (Or.inr (Or.inr rfl)),
   (c8_flag_cleared_only_by_suggestions id_digest fact_reply_ok 0 st_flag 5
      (str ("Physics")) (str ("English")) (str ("All Topics")) 5 (str ("Physics"))
      (str ("All Topics"))).2⟩

/-- The empty-answer substitution never returns an empty text. -/
theorem if_empty_sub_ne_nil (rt fallback : Str) (hf : fallback ≠ []) :
    (if rt = [] then fallback else rt) ≠ [] := by
  split
  · exact hf
  · assumption

/-- The text field of `generate_response`, written out: it depends only on
the language lookup, the question, the to-English translation, the answer
model and the back-translation — never on the video enrichment steps. -/
theorem generate_response_text (ext : Externals) (question : Str)
    (grade : Nat) (subject language topic : Str) :
    (generate_response ext question grade subject language topic).text =
      (match ext.answer_model (answer_system_prompt grade) (answer_user_prompt
          (if (lang_map.lookup language).getD (str ("en")) ≠ str ("en") then
            match ext.translate_to_en question with
            | Except.ok t => t
            | Except.error _ => question
          else question)) with
       | Except.error _ => unexpected_error_text
       | Except.ok raw =>
         if (if (lang_map.lookup language).getD (str ("en")) ≠ str ("en") then
               match ext.translate_back ((lang_map.lookup language).getD (str ("en")))
                   (py_strip raw) with
               | Except.ok t => t
               | Except.error _ => py_strip raw
             else py_strip raw) = [] then
           trouble_message language
         else
           if (lang_map.lookup language).getD (str ("en")) ≠ str ("en") then
             match ext.translate_back ((lang_map.lookup language).getD (str ("en")))
                 (py_strip raw) with
             | Except.ok t => t
             | Except.error _ => py_strip raw
           else py_strip raw) := by
  simp only [generate_response]
  split
  next e heq =>
    rw [heq]
  next raw heq =>
    rw [heq]
    split <;> rfl

/-- Claim C1: for every input tuple and every behaviour of the external
services, `generate_response` returns an answer whose text is non-empty (the
embedding is total: the translation of the source shows every external
failure reaches a caught branch, so no exception escapes), and the text is
independent of the video-selection, transcript and summarization behaviours:
a failure in the enrichment steps never nulls out or blocks the text. -/
theorem c1_generate_response_text_robust (ext ext2 : Externals)
    (question : Str) (grade : Nat) (subject language topic : Str)
    (h1 : ext2.translate_to_en = ext.translate_to_en)
    (h2 : ext2.answer_model = ext.answer_model)
    (h3 : ext2.translate_back = ext.translate_back) :
    (generate_response ext question grade subject language topic).text ≠ []
    ∧ (generate_response ext2 question grade subject language topic).text
        = (generate_response ext question grade subject language topic).text := by
  constructor
  · rw [generate_response_text]
    split
    · decide
    · exact if_empty_sub_ne_nil _ _ (trouble_message_ne_nil language)
  · rw [generate_response_text, generate_response_text, h1, h2, h3]

/-- Witness for C1 at the all-failing behaviour. -/
theorem c1_generate_response_text_robust_witness :
    (generate_response all_fail (str ("Why is the sky blue?")) 5 (str ("Physics"))
        (str ("English")) (str ("All Topics"))).text ≠ []
    ∧ (generate_response all_fail (str ("Why is the sky blue?")) 5 (str ("Physics"))
        (str ("English")) (str ("All Topics"))).text
      = (generate_response all_fail (str ("Why is the sky blue?")) 5 (str ("Physics"))
        (str ("English")) (str ("All Topics"))).text :=
  c1_generate_response_text_robust all_fail all_fail (str ("Why is the sky blue?"))
    5 (str ("Physics")) (str ("English")) (str ("All Topics")) rfl rfl rfl

/-- Counterexample to C2: the returned dictionary carries no
`original_untranslated_text` field or flag.  A run whose back-translation
raises and a run whose back-translation succeeds returning the same text
produce identical results, so the caller cannot tell that a translation
fallback occurred; the fallback only yields the pivot text. -/
theorem c2_no_fallback_marker :
    generate_response back_translation_fails (str ("q")) 5 (str ("Physics"))
        (str ("Hindi")) (str ("All Topics"))
      = generate_response back_translation_echoes (str ("q")) 5 (str ("Physics"))
        (str ("Hindi")) (str ("All Topics"))
    ∧ (generate_response back_translation_fails (str ("q")) 5 (str ("Physics"))
        (str ("Hindi")) (str ("All Topics"))).text = py_strip (str ("Hello")) := by
  decide

/-- Claim C2 (amended): for a non-pivot language, when the back-translation
of the English answer fails, `generate_response` returns the pivot-language
(English) answer as the text field; the returned dictionary has only the
text / video_url / video_summary keys and carries no
`original_untranslated_text` marker of the fallback (a transient UI warning
is shown instead). -/
theorem c2_translation_fallback_text (ext : Externals) (question : Str)
    (grade : Nat) (subject language topic : Str) (code qEn raw err : Str)
    (hl : lang_map.lookup language = some code)
    (hc : code ≠ str ("en"))
    (ht : ext.translate_to_en question = Except.ok qEn)
    (hm : ext.answer_model (answer_system_prompt grade) (answer_user_prompt qEn)
        = Except.ok raw)
    (hb : ext.translate_back code (py_strip raw) = Except.error err)
    (hne : py_strip raw ≠ []) :
    (generate_response ext question grade subject language topic).text
      = py_strip raw := by
  simp only [generate_response, hl, Option.getD, if_pos hc, ht, hm, hb]
  rw [if_neg hne]
  cases hv : search_and_select_video ext qEn grade subject topic <;> simp [hv]

/-- Witness for the amended C2 at a concrete failing back-translation. -/
theorem c2_translation_fallback_text_witness :
    (generate_response back_translation_fails (str ("q")) 5 (str ("Physics"))
        (str ("Hindi")) (str ("All Topics"))).text = py_strip (str ("Hello")) :=
  c2_translation_fallback_text back_translation_fails (str ("q")) 5 (str ("Physics"))
    (str ("Hindi")) (str ("All Topics")) (str ("hi")) (str ("Why is the sky blue?"))
    (str ("Hello")) (str ("down")) (by decide) (by decide) rfl rfl rfl (by decide)

/-- Claim C7: the video selector returns `none` — not an exception — when the
search raises, when the search returns zero results, and when the selection
call raises. -/
theorem c7_video_selector_none (ext : Externals) (question : Str)
    (grade : Nat) (subject topic : Str) :
    (∀ err, ext.video_search (search_query grade subject topic question)
        = Except.error err →
      search_and_select_video ext question grade subject topic = none)
    ∧ (ext.video_search (search_query grade subject topic question) = Except.ok [] →
      search_and_select_video ext question grade subject topic = none)
    ∧ (∀ videos err,
        ext.video_search (search_query grade subject topic question) = Except.ok videos →
        ext.select_model select_system_prompt
          (selection_prompt grade topic subject question (video_options videos))
          = Except.error err →
      search_and_select_video ext question grade subject topic = none) := by
  refine ⟨?_, ?_, ?_⟩
  · intro err h
    by_cases hy : ext.youtube_service = false
    · simp [search_and_select_video, hy]
    · simp [search_and_select_video, hy, h]
  · intro h
    by_cases hy : ext.youtube_service = false
    · simp [search_and_select_video, hy]
    · simp [search_and_select_video, hy, h]
  · intro videos err h hs
    by_cases hy : ext.youtube_service = false
    · simp [search_and_select_video, hy]
    · by_cases hv : videos = []
      · simp [search_and_select_video, hy, h, hv]
      · simp [search_and_select_video, hy, h, hv, hs]

/-- Witness for C7: zero results, a raising selection call, and a raising
search all yield `none`. -/
theorem c7_video_selector_none_witness :
    search_and_select_video empty_search (str ("q")) 5 (str ("Physics"))
        (str ("All Topics")) = none
    ∧ search_and_select_video select_raises (str ("q")) 5 (str ("Physics"))
        (str ("All Topics")) = none
    ∧ search_and_select_video all_fail (str ("q")) 5 (str ("Physics"))
        (str ("All Topics")) = none :=
  ⟨(c7_video_selector_none empty_search (str ("q")) 5 (str ("Physics"))
      (str ("All Topics"))).2.1 rfl,
   (c7_video_selector_none select_raises (str ("q")) 5 (str ("Physics"))
      (str ("All Topics"))).2.2
      [{ id := str ("dQw4w9WgXcQ"), title := str ("t1"), description := str ("d1") }]
      (str ("down")) rfl rfl,
   (c7_video_selector_none all_fail (str ("q")) 5 (str ("Physics"))
      (str ("All Topics"))).1 (str ("down")) rfl⟩

/-- A successfully parsed id is an id-shaped token of the scanned text. -/
theorem re_search_id_imp_token : ∀ (cs tok : Str),
    re_search_id cs = some tok → id_token_at cs tok := by
  intro cs
  induction cs with
  | nil => intro tok h; simp [re_search_id] at h
  | cons c cs ih =>
    intro tok h
    rw [re_search_id] at h
    split at h
    · rename_i hcond
      cases h
      exact ⟨0, rfl, hcond.1, hcond.2⟩
    · rcases ih tok h with ⟨i, ha, hb, hc⟩
      exact ⟨i + 1, ha, hb, hc⟩

/-- An id-shaped token needs at least 11 characters of text. -/
theorem id_token_at_length {cs tok : Str} (h : id_token_at cs tok) :
    11 ≤ cs.length := by
  rcases h with ⟨i, h1, _, h3⟩
  have h2 := congrArg List.length h1
  rw [List.length_take, List.length_drop, h3] at h2
  have h4 := Nat.min_le_right 11 (cs.length - i)
  rw [h2] at h4
  omega

/-- Every member of a dict-comprehension step has the id of an existing entry
or of the inserted value. -/
theorem insert_option_id_mem (acc : List VideoCandidate) (v w : VideoCandidate)
    (h : w ∈ insert_option acc v) :
    w.id ∈ acc.map VideoCandidate.id ∨ w.id = v.id := by
  unfold insert_option at h
  split at h
  · rcases List.mem_map.mp h with ⟨u, hu, hw⟩
    by_cases huv : u.id = v.id
    · right
      rw [if_pos huv] at hw
      rw [← hw]
    · left
      rw [if_neg huv] at hw
      rw [← hw]
      exact List.mem_map_of_mem _ hu
  · rcases List.mem_append.mp h with h1 | h1
    · left
      exact List.mem_map_of_mem _ h1
    · right
      rw [List.mem_singleton.mp h1]

/-- Ids of the folded dict are drawn from the accumulator and the inserted
videos. -/
theorem foldl_insert_option_id_mem : ∀ (videos acc : List VideoCandidate)
    (w : VideoCandidate), w ∈ List.foldl insert_option acc videos →
    w.id ∈ acc.map VideoCandidate.id ∨ w.id ∈ videos.map VideoCandidate.id := by
  intro videos
  induction videos with
  | nil =>
    intro acc w h
    left
    exact List.mem_map_of_mem _ h
  | cons v vs ih =>
    intro acc w h
    rcases ih (insert_option acc v) w h with h1 | h1
    · rcases List.mem_map.mp h1 with ⟨u, hu, hid⟩
      rcases insert_option_id_mem acc v u hu with h2 | h2
      · left
        rw [← hid]
        exact h2
      · right
        rw [← hid, h2]
        simp [List.map_cons]
    · right
      simp only [List.map_cons]
      exact List.mem_cons_of_mem _ h1

/-- Inserting videos whose ids differ from the head id keeps the head. -/
theorem foldl_insert_option_head : ∀ (rest acc : List VideoCandidate)
    (v : VideoCandidate), (∀ w ∈ rest, w.id ≠ v.id) →
    ∃ acc2, List.foldl insert_option (v :: acc) rest = v :: acc2 := by
  intro rest
  induction rest with
  | nil =>
    intro acc v _
    exact ⟨acc, rfl⟩
  | cons w ws ih =>
    intro acc v hw
    have hwv : w.id ≠ v.id := hw w (List.mem_cons_self w ws)
    have hvw : ¬ (v.id = w.id) := fun hh => hwv hh.symm
    have hstep : ∃ acc1, insert_option (v :: acc) w = v :: acc1 := by
      unfold insert_option
      split
      · exact ⟨acc.map (fun u => if u.id = w.id then w else u),
          by simp [List.map_cons, hvw]⟩
      · exact ⟨acc ++ [w], by simp⟩
    rcases hstep with ⟨acc1, hacc1⟩
    rw [List.foldl_cons, hacc1]
    exact ih acc1 v (fun u hu => hw u (List.mem_cons_of_mem w hu))

/-- When the later results never repeat the first id, the first entry of the
`video_options` dict is the first search result. -/
theorem video_options_head (v : VideoCandidate) (rest : List VideoCandidate)
    (hd : ∀ w ∈ rest, w.id ≠ v.id) :
    (video_options (v :: rest)).head? = some v := by
  unfold video_options
  rw [List.foldl_cons]
  rw [show insert_option [] v = [v] from rfl]
  rcases foldl_insert_option_head rest [] v hd with ⟨acc2, hacc⟩
  rw [hacc]
  rfl

/-- Claim C6 (amended): when the selection response contains no id-shaped
token matching an id of the result set, the selector returns the first entry
of the id-keyed `video_options` dict; whenever the later results do not
repeat the first result's id — in particular whenever ids are pairwise
distinct — that entry is exactly the first search result. -/
theorem c6_fallback_first (ext : Externals) (question : Str) (grade : Nat)
    (subject topic : Str) (v : VideoCandidate) (rest : List VideoCandidate)
    (raw : Str)
    (hy : ext.youtube_service = true)
    (hs : ext.video_search (search_query grade subject topic question)
        = Except.ok (v :: rest))
    (hd : ∀ w ∈ rest, w.id ≠ v.id)
    (hm : ext.select_model select_system_prompt
        (selection_prompt grade topic subject question (video_options (v :: rest)))
        = Except.ok raw)
    (hno : ∀ tok, id_token_at (py_strip raw) tok →
      ¬ tok ∈ (v :: rest).map VideoCandidate.id) :
    search_and_select_video ext question grade subject topic = some v := by
  simp only [search_and_select_video, hy, hs, hm]
  cases hre : re_search_id (py_strip raw) with
  | none =>
    simp only [hre]
    simp
    exact video_options_head v rest hd
  | some tok =>
    have htok := re_search_id_imp_token (py_strip raw) tok hre
    have hnotin := hno tok htok
    have hfind : List.find? (fun u => u.id == tok) (video_options (v :: rest))
        = none := by
      rw [List.find?_eq_none]
      intro u hu hbeq
      have hue : u.id = tok := by simpa using hbeq
      apply hnotin
      rw [← hue]
      rcases foldl_insert_option_id_mem (v :: rest) [] u hu with h1 | h1
      · simp at h1
      · exact h1
    simp only [hre, hfind]
    simp
    exact video_options_head v rest hd

/-- Witness for the amended C6: one candidate, a selection response with no
id-shaped token, fallback to the (sole, hence first) search result. -/
theorem c6_fallback_first_witness :
    search_and_select_video single_result_search (str ("q")) 5 (str ("Physics"))
        (str ("All Topics"))
      = some { id := str ("dQw4w9WgXcQ"), title := str ("t1"),
               description := str ("d1") } :=
  c6_fallback_first single_result_search (str ("q")) 5 (str ("Physics"))
    (str ("All Topics"))
    { id := str ("dQw4w9WgXcQ"), title := str ("t1"), description := str ("d1") }
    [] (str ("zzz")) rfl rfl (by simp) rfl
    (fun tok ht => absurd (id_token_at_length ht) (by decide))

/-- Counterexample to C6: with two search results sharing one id (titles t1,
t2) and a selection response containing no id-shaped token, the selector
returns the dict entry carrying the second result's content, which differs
from the first element of the search results — the claimed fallback value —
while still being neither `none` nor an exception. -/
theorem c6_duplicate_id_not_first :
    re_search_id (py_strip (str ("I cannot choose"))) = none
    ∧ search_and_select_video duplicate_id_search (str ("q")) 5 (str ("Physics"))
        (str ("All Topics"))
      = some { id := str ("AAAAAAAAAAA"), title := str ("t2"),
               description := str ("d2") }
    ∧ search_and_select_video duplicate_id_search (str ("q")) 5 (str ("Physics"))
        (str ("All Topics"))
      ≠ some { id := str ("AAAAAAAAAAA"), title := str ("t1"),
               description := str ("d1") }
    ∧ search_and_select_video duplicate_id_search (str ("q")) 5 (str ("Physics"))
        (str ("All Topics")) ≠ none := by
  decide

/-- Decimal notation is injective below 13 (grades range over 1 to 12). -/
theorem nat_str_inj_lt13 : ∀ g : Nat, g < 13 → ∀ g2 : Nat, g2 < 13 →
    nat_str g = nat_str g2 → g = g2 := by decide

/-- The settings string determines the grade (for grades below 13). -/
theorem settings_string_inj_grade {g g2 : Nat} {s l t : Str}
    (hg : g < 13) (hg2 : g2 < 13)
    (h : settings_string g s l t = settings_string g2 s l t) : g = g2 := by
  unfold settings_string at h
  have h1 := List.append_cancel_right h
  have h2 := List.append_cancel_right h1
  have h3 := List.append_cancel_right h2
  have h4 := List.append_cancel_right h3
  have h5 := List.append_cancel_right h4
  have h6 := List.append_cancel_right h5
  exact nat_str_inj_lt13 g hg g2 hg2 h6

/-- The settings string determines the subject. -/
theorem settings_string_inj_subject {g : Nat} {s s2 l t : Str}
    (h : settings_string g s l t = settings_string g s2 l t) : s = s2 := by
  unfold settings_string at h
  have h1 := List.append_cancel_right h
  have h2 := List.append_cancel_right h1
  have h3 := List.append_cancel_right h2
  have h4 := List.append_cancel_right h3
  exact List.append_cancel_left h4

/-- The settings string determines the language. -/
theorem settings_string_inj_language {g : Nat} {s l l2 t : Str}
    (h : settings_string g s l t = settings_string g s l2 t) : l = l2 := by
  unfold settings_string at h
  have h1 := List.append_cancel_right h
  have h2 := List.append_cancel_right h1
  exact List.append_cancel_left h2

/-- The settings string determines the topic. -/
theorem settings_string_inj_topic {g : Nat} {s l t t2 : Str}
    (h : settings_string g s l t = settings_string g s l t2) : t = t2 := by
  unfold settings_string at h
  exact List.append_cancel_left h

/-- Claim C9: the settings key is a pure deterministic digest of the four
inputs joined by a stable separator — two calls on one tuple coincide — and
changing any single field (grades ranging over the data model's 1..12) while
fixing the others changes the pre-digest settings string, hence changes the
key unless the digest collides on two distinct strings. -/
theorem c9_settings_hash_deterministic (digest : Str → Str) (g g2 : Nat)
    (s s2 l l2 t t2 : Str) (hg : g < 13) (hg2 : g2 < 13) :
    create_settings_hash digest g s l t = create_settings_hash digest g s l t
    ∧ (g ≠ g2 →
        create_settings_hash digest g s l t = create_settings_hash digest g2 s l t →
        ∃ a b : Str, a ≠ b ∧ digest a = digest b)
    ∧ (s ≠ s2 →
        create_settings_hash digest g s l t = create_settings_hash digest g s2 l t →
        ∃ a b : Str, a ≠ b ∧ digest a = digest b)
    ∧ (l ≠ l2 →
        create_settings_hash digest g s l t = create_settings_hash digest g s l2 t →
        ∃ a b : Str, a ≠ b ∧ digest a = digest b)
    ∧ (t ≠ t2 →
        create_settings_hash digest g s l t = create_settings_hash digest g s l t2 →
        ∃ a b : Str, a ≠ b ∧ digest a = digest b) := by
  refine ⟨rfl, ?_, ?_, ?_, ?_⟩
  · intro hne heq
    exact ⟨settings_string g s l t, settings_string g2 s l t,
      fun hss => hne (settings_string_inj_grade hg hg2 hss), heq⟩
  · intro hne heq
    exact ⟨settings_string g s l t, settings_string g s2 l t,
      fun hss => hne (settings_string_inj_subject hss), heq⟩
  · intro hne heq
    exact ⟨settings_string g s l t, settings_string g s l2 t,
      fun hss => hne (settings_string_inj_language hss), heq⟩
  · intro hne heq
    exact ⟨settings_string g s l t, settings_string g s l t2,
      fun hss => hne (settings_string_inj_topic hss), heq⟩

/-- Witness for C9 at concrete settings tuples. -/
theorem c9_settings_hash_deterministic_witness :
    create_settings_hash id_digest 5 (str ("Physics")) (str ("English")) (str ("All Topics"))
      = create_settings_hash id_digest 5 (str ("Physics")) (str ("English")) (str ("All Topics"))
    ∧ (5 ≠ 6 →
        create_settings_hash id_digest 5 (str ("Physics")) (str ("English")) (str ("All Topics"))
          = create_settings_hash id_digest 6 (str ("Physics")) (str ("English")) (str ("All Topics")) →
        ∃ a b : Str, a ≠ b ∧ id_digest a = id_digest b)
    ∧ ((str ("Physics")) ≠ (str ("Chemistry")) →
        create_settings_hash id_digest 5 (str ("Physics")) (str ("English")) (str ("All Topics"))
          = create_settings_hash id_digest 5 (str ("Chemistry")) (str ("English")) (str ("All Topics")) →
        ∃ a b : Str, a ≠ b ∧ id_digest a = id_digest b)
    ∧ ((str ("English")) ≠ (str ("Hindi")) →
        create_settings_hash id_digest 5 (str ("Physics")) (str ("English")) (str ("All Topics"))
          = create_settings_hash id_digest 5 (str ("Physics")) (str ("Hindi")) (str ("All Topics")) →
        ∃ a b : Str, a ≠ b ∧ id_digest a = id_digest b)
    ∧ ((str ("All Topics")) ≠ (str ("Plants")) →
        create_settings_hash id_digest 5 (str ("Physics")) (str ("English")) (str ("All Topics"))
          = create_settings_hash id_digest 5 (str ("Physics")) (str ("English")) (str ("Plants")) →
        ∃ a b : Str, a ≠ b ∧ id_digest a = id_digest b) :=
  c9_settings_hash_deterministic id_digest 5 6 (str ("Physics")) (str ("Chemistry"))
    (str ("English")) (str ("Hindi")) (str ("All Topics")) (str ("Plants"))
    (by decide) (by decide)

/-- The video selector only reads the service handle, the search behaviour
and the selection-model behaviour. -/
theorem search_and_select_video_congr (ext ext2 : Externals)
    (h1 : ext2.youtube_service = ext.youtube_service)
    (h2 : ext2.video_search = ext.video_search)
    (h3 : ext2.select_model = ext.select_model) :
    ∀ q g s t, search_and_select_video ext2 q g s t
      = search_and_select_video ext q g s t := by
  intro q g s t
  simp only [search_and_select_video, h1, h2, h3]

/-- The summarizer only reads the transcript and summary-model behaviours. -/
theorem get_video_summary_congr (ext ext2 : Externals)
    (h1 : ext2.transcript_fetch = ext.transcript_fetch)
    (h2 : ext2.summary_model = ext.summary_model) :
    ∀ vid desc, get_video_summary ext2 vid desc
      = get_video_summary ext vid desc := by
  intro vid desc
  simp only [get_video_summary, h1, h2]

/-- Claim C10: for every language whose map lookup yields the pivot code
`'en'` — `"English"` as well as any name absent from `lang_map` — the result
of `generate_response` is independent of both translator behaviours (no
translation happens in either direction), the model is invoked on the
user's question verbatim, and the returned text equals the model's English
answer whenever that stripped answer is non-empty. -/
theorem c10_pivot_language_no_translation (ext ext2 : Externals)
    (question : Str) (grade : Nat) (subject language topic : Str)
    (hl : (lang_map.lookup language).getD (str ("en")) = str ("en"))
    (e1 : ext2.answer_model = ext.answer_model)
    (e2 : ext2.youtube_service = ext.youtube_service)
    (e3 : ext2.video_search = ext.video_search)
    (e4 : ext2.select_model = ext.select_model)
    (e5 : ext2.transcript_fetch = ext.transcript_fetch)
    (e6 : ext2.summary_model = ext.summary_model) :
    generate_response ext2 question grade subject language topic
      = generate_response ext question grade subject language topic
    ∧ ∀ raw, ext.answer_model (answer_system_prompt grade) (answer_user_prompt question)
          = Except.ok raw → py_strip raw ≠ [] →
        (generate_response ext question grade subject language topic).text
          = py_strip raw := by
  have hsv := search_and_select_video_congr ext ext2 e2 e3 e4
  have hgs := get_video_summary_congr ext ext2 e5 e6
  constructor
  · simp [generate_response, hl, e1, hsv, hgs]
  · intro raw hm hne
    simp only [generate_response, hl]
    simp only [ne_eq, not_true_eq_false, if_false]
    rw [hm]
    simp only [if_neg hne]
    cases hv : search_and_select_video ext question grade subject topic <;> simp [hv]

/-- Witness for C10: an unmapped language name behaves as the pivot. -/
theorem c10_pivot_language_no_translation_witness :
    generate_response back_translation_echoes (str ("Why is the sky blue?")) 5
        (str ("Physics")) (str ("Klingon")) (str ("All Topics"))
      = generate_response back_translation_fails (str ("Why is the sky blue?")) 5
        (str ("Physics")) (str ("Klingon")) (str ("All Topics"))
    ∧ (generate_response back_translation_fails (str ("Why is the sky blue?")) 5
        (str ("Physics")) (str ("Klingon")) (str ("All Topics"))).text
        = py_strip (str ("Hello")) :=
  ⟨(c10_pivot_language_no_translation back_translation_fails back_translation_echoes
      (str ("Why is the sky blue?")) 5 (str ("Physics")) (str ("Klingon"))
      (str ("All Topics")) (by decide) rfl rfl rfl rfl rfl rfl).1,
   (c10_pivot_language_no_translation back_translation_fails back_translation_echoes
      (str ("Why is the sky blue?")) 5 (str ("Physics")) (str ("Klingon"))
      (str ("All Topics")) (by decide) rfl rfl rfl rfl rfl rfl).2
      (str ("Hello")) rfl (by decide)⟩

end ScienceGPT
